import Mathlib

/-!
Verification of the MCPDroid JSON-RPC tool server (`src/core/mcp_server.py`),
its multi-device coordination primitives (`src/core/multi_device_controller.py`)
and its schema inference (`src/tools/android_tools.py`), via a shallow
embedding of the Python code into Lean.

Conventions of the embedding:
* Python JSON-like values (the payloads of requests, responses and tool
  results) are modelled by `Value`; `Value.null` is Python `None`.
* A Python callable's behaviour on given parameters is modelled by
  `PyResult`: it either returns a value, raises an `MCPError(message, code)`,
  or raises some other exception carrying `str(e)`.
* Calling an `async def` handler without `await` yields an unawaited
  coroutine object, modelled by `Value.coroutine`; `json.dumps` raises
  `TypeError` on such an object.
* Python dicts keyed by strings are association lists updated by
  `dictInsert` (in-place overwrite, insertion order preserved), matching
  CPython dict semantics.
-/

namespace MCPDroid

mutual
/-- A Python runtime value as it flows through the dispatcher: JSON data
(`null`/`bool`/`int`/`str`/list/dict) or an unawaited coroutine object
wrapping the computation it would perform when awaited. -/
inductive Value where
  | null
  | bool (b : Bool)
  | int (n : Int)
  | str (s : String)
  | arr (xs : List Value)
  | obj (fs : List (String × Value))
  | coroutine (suspended : PyResult)

/-- Outcome of running a Python callable to completion: a returned value,
a raised `MCPError(message, code)`, or another raised exception described
by `str(e)`. -/
inductive PyResult where
  | ok (v : Value)
  | mcpError (message : String) (code : Int)
  | exn (detail : String)
end

/-- `value is None` (the test used by pydantic `exclude_none` and by
`share_between_devices`). -/
def Value.isNone : Value → Bool
  | .null => true
  | _ => false

/-- Python dict assignment `d[k] = v`: overwrite in place if the key is
present, else append (CPython dicts preserve insertion order). -/
def dictInsert {α : Type} (k : String) (v : α) : List (String × α) → List (String × α)
  | [] => [(k, v)]
  | (k₁, v₁) :: rest => if k₁ = k then (k, v) :: rest else (k₁, v₁) :: dictInsert k v rest

/-- Python dict lookup `d[k]` / membership `k in d`, as an `Option`. -/
def dictGet {α : Type} (k : String) : List (String × α) → Option α
  | [] => none
  | (k₁, v₁) :: rest => if k₁ = k then some v₁ else dictGet k rest

/-- `data.get(k)` on a dict value (`none` when `data` is not a dict or the
key is absent). -/
def jsonGet (o : Value) (k : String) : Option Value :=
  match o with
  | .obj fs => dictGet k fs
  | _ => none

/-- `data.get(k, default)`. -/
def jsonGetD (o : Value) (k : String) (default : Value) : Value :=
  (jsonGet o k).getD default

/-- `k in data` for a dict value. -/
def jsonHasKey (o : Value) (k : String) : Bool :=
  (jsonGet o k).isSome

mutual
/-- Python `str()` of a value, as used in f-strings by the dispatcher
(`f"tools/{tool_name}"`, `f"方法未找到: {method}"`). Containers are rendered
with `repr` of their elements, as CPython does. -/
def pyStr : Value → String
  | .null => "None"
  | .bool true => "True"
  | .bool false => "False"
  | .int n => toString n
  | .str s => s
  | .arr xs => "[" ++ pyStrList xs ++ "]"
  | .obj fs => "\x7b" ++ pyStrFields fs ++ "\x7d"
  | .coroutine _ => "<coroutine object>"

/-- Python `repr()` of a value (used for elements inside containers). -/
def pyRepr : Value → String
  | .null => "None"
  | .bool true => "True"
  | .bool false => "False"
  | .int n => toString n
  | .str s => "\x27" ++ s ++ "\x27"
  | .arr xs => "[" ++ pyStrList xs ++ "]"
  | .obj fs => "\x7b" ++ pyStrFields fs ++ "\x7d"
  | .coroutine _ => "<coroutine object>"

def pyStrList : List Value → String
  | [] => ""
  | [x] => pyRepr x
  | x :: xs => pyRepr x ++ ", " ++ pyStrList xs

def pyStrFields : List (String × Value) → String
  | [] => ""
  | [(k, v)] => "\x27" ++ k ++ "\x27: " ++ pyRepr v
  | (k, v) :: fs => "\x27" ++ k ++ "\x27: " ++ pyRepr v ++ ", " ++ pyStrFields fs
end

mutual
/-- Whether `json.dumps` succeeds on the value: every value of this model is
JSON-serializable except (values containing) coroutine objects, on which
`dumps` raises `TypeError`. -/
def isSerializable : Value → Bool
  | .null => true
  | .bool _ => true
  | .int _ => true
  | .str _ => true
  | .arr xs => isSerializableList xs
  | .obj fs => isSerializableFields fs
  | .coroutine _ => false

def isSerializableList : List Value → Bool
  | [] => true
  | x :: xs => isSerializable x && isSerializableList xs

def isSerializableFields : List (String × Value) → Bool
  | [] => true
  | (_, v) :: fs => isSerializable v && isSerializableFields fs
end

/-- The `TypeError` message `json.dumps` raises on an unawaited coroutine. -/
def coroutineDumpError : String := "Object of type coroutine is not JSON serializable"

/-- The handler field of an `MCPTool`: an ordinary (sync or `async def`)
Python function from a params dict to an outcome, or one of the two bound
methods installed by `register_core_tools` (`_handle_tools_list`,
`_handle_tools_call`). -/
inductive Handler where
  | fn (isAsync : Bool) (body : Value → PyResult)
  | toolsList
  | toolsCall

/-- `MCPTool` from `mcp_server.py`: name, description, handler, input
schema and annotation hints (`input_schema or {}` / `annotations or {}`
normalisation is assumed already applied). -/
structure MCPTool where
  name : String
  description : String
  handler : Handler
  input_schema : Value
  annotations : Value

/-- `MCPServer.tools`: the registry dict, keyed by the namespaced method
name. -/
abbrev Registry := List (String × MCPTool)

/-- The input schema registered for the `tools/call` meta-tool. -/
def toolsCallSchema : Value :=
  .obj [("type", .str "object"),
        ("properties", .obj
          [("name", .obj [("type", .str "string"), ("description", .str "工具名称")]),
           ("parameters", .obj [("type", .str "object"), ("description", .str "工具参数")])]),
        ("required", .arr [.str "name"])]

/-- The built-in `list` meta-tool as registered by `register_core_tools`. -/
def builtinListTool : MCPTool :=
  ⟨"list", "列出所有可用工具", .toolsList, .obj [], .obj []⟩

/-- The built-in `call` meta-tool as registered by `register_core_tools`. -/
def builtinCallTool : MCPTool :=
  ⟨"call", "调用指定工具", .toolsCall, toolsCallSchema, .obj []⟩

/-- `register_core_tools`: the initial registry holding the two built-in
meta-tools under the fixed keys `tools/list` and `tools/call`. -/
def initTools : Registry :=
  [("tools/list", builtinListTool), ("tools/call", builtinCallTool)]

/-- `register_tool`: stores the tool in the registry under the key
`tools/<name>`. -/
def registerTool (tools : Registry) (t : MCPTool) : Registry :=
  dictInsert ("tools/" ++ t.name) t tools

/-- `_handle_tools_list`: lists every registered tool whose key starts with
`tools/`, excluding the two fixed meta-tool keys. -/
def toolsListResult (tools : Registry) : Value :=
  .obj [("tools", .arr
    ((tools.filter fun p =>
        p.1.startsWith "tools/" && !(p.1 = "tools/list" : Bool) && !(p.1 = "tools/call" : Bool)).map
      fun p => Value.obj
        [("name", .str p.2.name),
         ("description", .str p.2.description),
         ("inputSchema", p.2.input_schema),
         ("annotations", p.2.annotations)]))]

/-- `_handle_tools_call`: looks up `tools/<name>`, raising `MCPError(...,
-32601)` if absent; then calls `tool.handler(tool_params)` directly —
without `await`, so an `async def` handler yields an unawaited coroutine
object — wrapping the returned value as `{"result": result}` and
re-wrapping any raised exception as `MCPError(f"工具调用失败: {str(e)}")` with
the default code `-32000`. The fuel argument bounds `tools/call`-in-
`tools/call` nesting; exhaustion models Python's `RecursionError`, itself
an ordinary exception. -/
def handleToolsCall (tools : Registry) : Nat → Value → PyResult
  | 0, _ => .exn "maximum recursion depth exceeded"
  | fuel + 1, params =>
    let toolName := jsonGetD params "name" .null
    let toolParams := jsonGetD params "parameters" (.obj [])
    let fullToolName := "tools/" ++ pyStr toolName
    match dictGet fullToolName tools with
    | none => .mcpError ("工具未找到: " ++ pyStr toolName) (-32601)
    | some tool =>
      -- `result = tool.handler(tool_params)`, wrapped in try/except
      let callResult : Sum Value String :=
        match tool.handler with
        | .fn true body => .inl (.coroutine (body toolParams))
        | .fn false body =>
          match body toolParams with
          | .ok v => .inl v
          | .mcpError m _ => .inr m
          | .exn d => .inr d
        | .toolsList => .inl (toolsListResult tools)
        | .toolsCall =>
          match handleToolsCall tools fuel toolParams with
          | .ok v => .inl v
          | .mcpError m _ => .inr m
          | .exn d => .inr d
      match callResult with
      | .inl v => .ok (.obj [("result", v)])
      | .inr e => .mcpError ("工具调用失败: " ++ e) (-32000)

/-- `_call_handler`: awaits coroutine-function handlers and calls plain ones,
so either kind of handler body runs to completion before the dispatcher
builds a response. -/
def callHandler (tools : Registry) (fuel : Nat) (h : Handler) (params : Value) : PyResult :=
  match h with
  | .fn true body => body params
  | .fn false body => body params
  | .toolsList => .ok (toolsListResult tools)
  | .toolsCall => handleToolsCall tools fuel params

/-- The serialized response dict sent back on the wire. -/
abbrev Envelope := List (String × Value)

/-- The pydantic `MCPResponse` model: `jsonrpc` is always `"2.0"`;
`id`, `result` and `error` may each be `None`. -/
structure MCPResponse where
  id : Value
  result : Value
  error : Value

/-- `response.dict(exclude_none=True)`: the serialized dict keeps `jsonrpc`
and drops every field whose value is `None`. -/
def MCPResponse.dictExcludeNone (r : MCPResponse) : Envelope :=
  [("jsonrpc", .str "2.0")]
    ++ (if r.id.isNone then [] else [("id", r.id)])
    ++ (if r.result.isNone then [] else [("result", r.result)])
    ++ (if r.error.isNone then [] else [("error", r.error)])

/-- `_create_success_response`. -/
def createSuccessResponse (requestId : Value) (result : Value) : Envelope :=
  (MCPResponse.mk requestId result .null).dictExcludeNone

/-- `_create_error_response`. -/
def createErrorResponse (requestId : Value) (message : String) (code : Int) : Envelope :=
  (MCPResponse.mk requestId .null
    (.obj [("code", .int code), ("message", .str message)])).dictExcludeNone

/-- `data.get("jsonrpc") != "2.0"` — true exactly when the value is the
string `"2.0"`. -/
def isVersionTag (v : Option Value) : Bool :=
  match v with
  | some (.str s) => s = "2.0"
  | _ => false

/-- `_handle_single_request` on a (dict-shaped) decoded body: validates the
envelope, routes by method, invokes the handler through `_call_handler`,
and converts the outcome — including the `json.dumps` `TypeError` raised
inside `_create_success_response` on a non-serializable result — into a
response envelope. -/
def handleSingleRequest (tools : Registry) (fuel : Nat) (data : Value) : Envelope :=
  if !(isVersionTag (jsonGet data "jsonrpc")) || !(jsonHasKey data "method") then
    createErrorResponse (jsonGetD data "id" .null) "无效的请求" (-32600)
  else
    let requestId := jsonGetD data "id" .null
    let method := jsonGetD data "method" .null
    let params := jsonGetD data "params" (.obj [])
    match method with
    | .arr _ | .obj _ =>
      -- `method not in self.tools` raises `TypeError` (unhashable type); the
      -- top-level except in `handle_jsonrpc` turns it into a generic error
      createErrorResponse requestId "Internal error" (-32603)
    | m =>
      match (match m with | .str s => dictGet s tools | _ => none) with
      | none => createErrorResponse requestId ("方法未找到: " ++ pyStr m) (-32601)
      | some tool =>
        match callHandler tools fuel tool.handler params with
        | .ok v =>
          if isSerializable v then
            createSuccessResponse requestId v
          else
            -- json.dumps raised inside the try of `_handle_single_request`
            createErrorResponse requestId ("服务器内部错误: " ++ coroutineDumpError) (-32603)
        | .mcpError m₁ c => createErrorResponse requestId m₁ c
        | .exn d => createErrorResponse requestId ("服务器内部错误: " ++ d) (-32603)

/-- `_handle_batch_request`: batch requests are rejected outright. -/
def handleBatchRequest (_batch : List Value) : Envelope :=
  createErrorResponse .null "不支持批量请求" (-32600)

/-- An HTTP request body as `handle_jsonrpc` observes it: empty, not valid
JSON, or decoding to a JSON value. -/
inductive RequestBody where
  | empty
  | invalid (raw : String)
  | parsed (data : Value)

/-- `handle_jsonrpc`: the single dispatcher entry point. Empty bodies and
JSON decode failures are answered directly; array bodies go to the batch
handler; dict bodies go to `_handle_single_request`; any other JSON value
makes `data.get("id")` raise `AttributeError`, which the top-level except
converts to a generic internal error. -/
def handleJsonrpc (tools : Registry) (fuel : Nat) (body : RequestBody) : Envelope :=
  match body with
  | .empty => createErrorResponse .null "无效的空请求" (-32600)
  | .invalid _ => createErrorResponse .null "无效的JSON" (-32700)
  | .parsed data =>
    match data with
    | .arr batch => handleBatchRequest batch
    | .obj _ => handleSingleRequest tools fuel data
    | _ => createErrorResponse .null "Internal error" (-32603)

/-- Field access on a serialized envelope. -/
def envField (env : Envelope) (k : String) : Option Value :=
  dictGet k env

/-- Whether the serialized envelope contains the field at all. -/
def envHasField (env : Envelope) (k : String) : Bool :=
  (envField env k).isSome

/-- The `error.code` of an envelope, when present. -/
def envErrorCode (env : Envelope) : Option Int :=
  match envField env "error" with
  | some e =>
    match jsonGet e "code" with
    | some (.int c) => some c
    | _ => none
  | none => none

/-- The `error.message` of an envelope, when present. -/
def envErrorMessage (env : Envelope) : Option String :=
  match envField env "error" with
  | some e =>
    match jsonGet e "message" with
    | some (.str m) => some m
    | _ => none
  | none => none

/-- The `result` field of an envelope, when present. -/
def envResult (env : Envelope) : Option Value :=
  envField env "result"

/-- A single request addressing a registered tool directly under its
namespaced method name `tools/<name>`. -/
def directRequest (toolName : String) (reqId : Value) (params : Value) : Value :=
  .obj [("jsonrpc", .str "2.0"), ("id", reqId),
        ("method", .str ("tools/" ++ toolName)), ("params", params)]

/-- A single request addressing a registered tool through the `tools/call`
meta-tool. -/
def callRequest (toolName : String) (reqId : Value) (params : Value) : Value :=
  .obj [("jsonrpc", .str "2.0"), ("id", reqId), ("method", .str "tools/call"),
        ("params", .obj [("name", .str toolName), ("parameters", params)])]

/-! ## Multi-device coordination (`multi_device_controller.py`) -/

/-- A Python optional string argument; `none` is `None`. `if not s` is true
for `None` and for the empty string. -/
def pyFalsyStr : Option String → Bool
  | none => true
  | some s => s.isEmpty

/-- `MultiDeviceController.sync_locks`: the named `threading.Event`s, each
either set (`true`) or unset (`false`). -/
abbrev SyncState := List (String × Bool)

/-- Outcome dict of a `sync_operations` call (`success` plus `message`). -/
structure SyncResult where
  success : Bool
  message : String
deriving Repr, DecidableEq

/-- `sync_operations(action, lock_name, timeout)` as a state transition on
the signal map, in a sequential trace semantics: `Event.wait(timeout)`
returns immediately with `True` when the event is set, and in a trace with
no concurrent setter a wait on an unset event runs out its timeout and
returns `False`. `create` unconditionally installs a fresh (unset) Event;
`wait`/`set` install one only when the name is absent. -/
def syncOperations (st : SyncState) (action : String) (lockName : Option String) :
    SyncState × SyncResult :=
  if pyFalsyStr lockName then
    (st, ⟨false, "未指定锁名称"⟩)
  else
    let name := lockName.getD ""
    if action = "create" then
      (dictInsert name false st, ⟨true, "已创建锁 " ++ name⟩)
    else if action = "wait" then
      match dictGet name st with
      | none =>
        -- auto-created unset; with no concurrent setter the wait times out
        (dictInsert name false st, ⟨false, "等待锁 " ++ name ++ " 超时"⟩)
      | some ev =>
        (st, if ev then ⟨true, "锁 " ++ name ++ " 已触发"⟩
             else ⟨false, "等待锁 " ++ name ++ " 超时"⟩)
    else if action = "set" then
      -- auto-create if absent, then `lock_obj.set()`
      (dictInsert name true st, ⟨true, "已设置锁 " ++ name⟩)
    else if action = "release" then
      match dictGet name st with
      | none => (st, ⟨false, "锁 " ++ name ++ " 不存在"⟩)
      | some _ => (dictInsert name false st, ⟨true, "已释放锁 " ++ name⟩)
    else
      (st, ⟨false, "不支持的操作类型: " ++ action⟩)

/-- Run a sequence of `sync_operations` calls (action, lock name), keeping
only the evolving signal map. -/
def runSync (st : SyncState) : List (String × Option String) → SyncState
  | [] => st
  | (a, l) :: rest => runSync (syncOperations st a l).1 rest

/-- `MultiDeviceController.shared_data`: the blackboard dict. -/
abbrev SharedData := List (String × Value)

/-- The `share_data` / `get_data` branches of `share_between_devices`
(the `copy_file` branch performs device file I/O and is outside this pure
model): validates the key (and, for `share_data`, that the value is not
`None`), then upserts into / reads from the shared-data dict. -/
def shareBetweenDevicesData (st : SharedData) (action : String)
    (dataKey : Option String) (dataValue : Value) : SharedData × Value :=
  if action = "share_data" then
    if pyFalsyStr dataKey then
      (st, .obj [("success", .bool false), ("message", .str "未指定数据键")])
    else if dataValue.isNone then
      (st, .obj [("success", .bool false), ("message", .str "未指定数据值")])
    else
      let k := dataKey.getD ""
      (dictInsert k dataValue st,
       .obj [("success", .bool true), ("message", .str ("数据已共享，键: " ++ k))])
  else if action = "get_data" then
    if pyFalsyStr dataKey then
      (st, .obj [("success", .bool false), ("message", .str "未指定数据键")])
    else
      let k := dataKey.getD ""
      match dictGet k st with
      | none =>
        (st, .obj [("success", .bool false), ("message", .str ("共享数据中不存在键: " ++ k))])
      | some v => (st, .obj [("success", .bool true), ("data", v)])
  else
    (st, .obj [("success", .bool false), ("message", .str ("不支持的操作类型: " ++ action))])

/-! ## Resource cleanup (`MCPServer.cleanup`) -/

/-- A tracked background thread (`resources["running_threads"]`). -/
structure ThreadModel where
  name : String
  isAlive : Bool

/-- A tracked controller (`resources["controllers"]`): whether it exposes a
callable `cleanup` hook, and whether that hook raises (with `str(e)`) or
returns normally. -/
structure ControllerModel where
  name : String
  hasCleanup : Bool
  cleanupRaises : Option String

/-- `MCPServer.resources`. -/
structure Resources where
  running_threads : List ThreadModel
  controllers : List ControllerModel

/-- Observable events of a `cleanup()` run. -/
inductive CleanupEvent where
  | threadChecked (thread : String)
  | hookCalled (controller : String)
  | hookFailedLogged (controller : String) (detail : String)
deriving Repr, DecidableEq

/-- Result of running a Python block: normal termination or an uncaught
exception, each with the trace of events up to that point. -/
inductive PyRun where
  | norm (events : List CleanupEvent)
  | raised (detail : String) (events : List CleanupEvent)
deriving Repr, DecidableEq

/-- Sequencing of Python blocks: an uncaught exception in the first block
skips the second. -/
def pySeq : PyRun → PyRun → PyRun
  | .norm ev, .norm ev₂ => .norm (ev ++ ev₂)
  | .norm ev, .raised d ev₂ => .raised d (ev ++ ev₂)
  | .raised d ev, _ => .raised d ev

/-- `try: body except Exception as e: logger.error(...)`: a raised
exception is swallowed and logged. -/
def pyTryExcept (body : PyRun) (logOnExn : String → CleanupEvent) : PyRun :=
  match body with
  | .norm ev => .norm ev
  | .raised d ev => .norm (ev ++ [logOnExn d])

/-- One iteration body of the controller loop in `cleanup`:
`if hasattr(controller, "cleanup") and callable(...): controller.cleanup()`. -/
def callCleanupHook (c : ControllerModel) : PyRun :=
  if c.hasCleanup then
    match c.cleanupRaises with
    | none => .norm [.hookCalled c.name]
    | some d => .raised d [.hookCalled c.name]
  else .norm []

/-- The controller loop of `cleanup`: each controller's hook runs inside its
own try/except. -/
def cleanupControllersLoop : List ControllerModel → PyRun
  | [] => .norm []
  | c :: rest =>
    pySeq (pyTryExcept (callCleanupHook c) (.hookFailedLogged c.name))
      (cleanupControllersLoop rest)

/-- The thread loop of `cleanup`: checks `thread.is_alive()` and logs; it
cannot force-stop a thread and performs no state change. -/
def cleanupThreadsLoop : List ThreadModel → PyRun
  | [] => .norm []
  | t :: rest =>
    pySeq (if t.isAlive then .norm [.threadChecked t.name] else .norm [])
      (cleanupThreadsLoop rest)

/-- `MCPServer.cleanup()`: thread loop, then controller loop. It never
mutates `resources`, so invoking it again sees the same state. -/
def mcpCleanup (res : Resources) : PyRun :=
  pySeq (cleanupThreadsLoop res.running_threads) (cleanupControllersLoop res.controllers)

/-- `MCPServer._handle_signal` (installed for SIGTERM and SIGINT): logs and
delegates to `cleanup()`. -/
def handleSignal (res : Resources) (_signum : Int) : PyRun :=
  mcpCleanup res

/-- Whether a Python block terminated normally (no uncaught exception). -/
def PyRun.isNorm : PyRun → Bool
  | .norm _ => true
  | .raised _ _ => false

/-- The event trace of a Python block. -/
def PyRun.events : PyRun → List CleanupEvent
  | .norm ev => ev
  | .raised _ ev => ev

/-! ## Schema inference (`AndroidTools._build_input_schema`) -/

/-- A Python type annotation as compared against by `_build_input_schema`:
absent, one of the primitive types, `List[...]`, or any other annotation
object. -/
inductive PyAnn where
  | empty
  | str
  | int
  | float
  | bool
  | list (elem : PyAnn)
  | other (typeName : String)
deriving Repr, DecidableEq

/-- One declared parameter of a handler: name, annotation, and whether the
declaration carries a default value. -/
structure SigParam where
  name : String
  ann : PyAnn
  hasDefault : Bool
deriving Repr, DecidableEq

/-- The `if/elif` annotation chain of `_build_input_schema`: the JSON Schema
`type` string, plus the `items` element type when the parameter is mapped
to an array. Only `List[str]` and `List[int]` reach the array branches;
every other unrecognised annotation falls through to `"string"`. -/
def paramTypeOf : PyAnn → String × Option String
  | .empty => ("string", none)
  | .str => ("string", none)
  | .int => ("integer", none)
  | .float => ("number", none)
  | .bool => ("boolean", none)
  | .list .str => ("array", some "string")
  | .list .int => ("array", some "integer")
  | _ => ("string", none)

/-- Python `str.strip()`: removes leading and trailing whitespace. -/
def pyStrip (s : String) : String :=
  (((s.toList.dropWhile Char.isWhitespace).reverse.dropWhile
      Char.isWhitespace).reverse).asString

/-- Line accumulator for `str.split("\n")`. -/
def splitLinesAux : List Char → List Char → List String
  | acc, [] => [acc.reverse.asString]
  | acc, c :: rest =>
    if c = '\n' then acc.reverse.asString :: splitLinesAux [] rest
    else splitLinesAux (c :: acc) rest

/-- Python `str.split("\n")`. -/
def splitLines (s : String) : List String :=
  splitLinesAux [] s.toList

/-- Character-level prefix test. -/
def charsPrefix : List Char → List Char → Bool
  | [], _ => true
  | _ :: _, [] => false
  | c :: cs, d :: ds => c = d && charsPrefix cs ds

/-- Python `str.startswith(pre)`. -/
def strStartsWith (s pre : String) : Bool :=
  charsPrefix pre.toList s.toList

/-- Drop the first `n` characters of a string (`s[n:]`). -/
def strDropChars (s : String) (n : Nat) : String :=
  (s.toList.drop n).asString

/-- The per-parameter description scan: the docstring is stripped and split
into lines, each line stripped, and the first line starting with
`"<param>:"` yields the text after the colon (`line.split(":", 1)[1]`),
stripped. -/
def docDescription (doc : String) (pname : String) : Option String :=
  let lines := (splitLines (pyStrip doc)).map pyStrip
  match lines.find? (fun line => strStartsWith line (pname ++ ":")) with
  | some line => some (pyStrip (strDropChars line (pname ++ ":").length))
  | none => none

/-- The property object built for one parameter: `{"type": ...}`, plus
`items` for arrays, plus `description` when the docstring names the
parameter. -/
def paramProperty (doc : String) (p : SigParam) : Value :=
  let pt := paramTypeOf p.ann
  let base := [("type", Value.str pt.1)]
  let withItems :=
    match pt.2 with
    | some t => base ++ [("items", Value.obj [("type", Value.str t)])]
    | none => base
  let withDescr :=
    match docDescription doc p.name with
    | some d => withItems ++ [("description", Value.str d)]
    | none => withItems
  Value.obj withDescr

/-- Whether the loop skips the parameter (`self` receiver or the `params`
context argument). -/
def skipParam (p : SigParam) : Bool :=
  p.name = "self" || p.name = "params"

/-- One iteration of the parameter loop: builds the property, stores it in
`properties`, and appends the name to `required` when the parameter has no
default. -/
def buildStep (doc : String) (acc : List (String × Value) × List String)
    (p : SigParam) : List (String × Value) × List String :=
  if skipParam p then acc
  else
    (dictInsert p.name (paramProperty doc p) acc.1,
     acc.2 ++ (if p.hasDefault then [] else [p.name]))

/-- `_build_input_schema`: folds the loop over the declared parameters and
assembles `{"type": "object", "properties": ...}` plus `required` when
non-empty. -/
def buildInputSchema (doc : String) (ps : List SigParam) : Value :=
  let acc := ps.foldl (buildStep doc) ([], [])
  Value.obj ([("type", Value.str "object"), ("properties", Value.obj acc.1)]
    ++ (if acc.2.isEmpty then [] else [("required", Value.arr (acc.2.map Value.str))]))

/-- The property object recorded for a named parameter in a built schema. -/
def schemaProperty (schema : Value) (pname : String) : Option Value :=
  match jsonGet schema "properties" with
  | some props => jsonGet props pname
  | none => none

/-- The `required` list of a built schema (empty when the field is absent). -/
def schemaRequired (schema : Value) : List Value :=
  match jsonGet schema "required" with
  | some (.arr xs) => xs
  | _ => []

/-! ## Dictionary lemmas -/

theorem dictGet_insert_self {α : Type} (k : String) (v : α) (l : List (String × α)) :
    dictGet k (dictInsert k v l) = some v := by
  induction l with
  | nil => simp [dictInsert, dictGet]
  | cons hd tl ih =>
    obtain ⟨k₁, v₁⟩ := hd
    by_cases h : k₁ = k
    · simp [dictInsert, dictGet, h]
    · simp [dictInsert, dictGet, h, ih]

theorem dictGet_insert_ne {α : Type} {k k₁ : String} (hne : k₁ ≠ k) (v : α)
    (l : List (String × α)) : dictGet k (dictInsert k₁ v l) = dictGet k l := by
  induction l with
  | nil => simp [dictInsert, dictGet, hne]
  | cons hd tl ih =>
    obtain ⟨k₂, v₂⟩ := hd
    by_cases h : k₂ = k₁
    · subst h
      simp [dictInsert, dictGet, hne]
    · by_cases h₂ : k₂ = k <;>
        simp [dictInsert, dictGet, h, h₂, ih, Ne.symm hne]

theorem filter_dictInsert {α : Type} {p : String × α → Bool} {k : String} (v : α)
    (l : List (String × α)) (hp : ∀ w : α, p (k, w) = false) :
    (dictInsert k v l).filter p = l.filter p := by
  induction l with
  | nil => simp [dictInsert, List.filter, hp]
  | cons hd tl ih =>
    obtain ⟨k₁, v₁⟩ := hd
    by_cases h : k₁ = k
    · subst h
      simp [dictInsert, List.filter, hp]
    · simp only [dictInsert, h, if_false, List.filter_cons]
      rw [ih]

/-! ## Claim C10 — registry keying and meta-tool shadowing -/

/-- Claim C10 (confirmed): tools are stored under the key `tools/<name>`,
so registering a tool literally named `list` or `call` silently replaces
the built-in `tools/list` or `tools/call` entry, and — because the listing
filter excludes exactly those two fixed keys — the replacement tool is
omitted from the `tools/list` output, which is unchanged by the
registration. -/
theorem claim_C10 (tools : Registry) (t : MCPTool)
    (h : t.name = "list" ∨ t.name = "call") :
    dictGet ("tools/" ++ t.name) (registerTool tools t) = some t ∧
    toolsListResult (registerTool tools t) = toolsListResult tools := by
  refine ⟨dictGet_insert_self _ _ _, ?_⟩
  unfold toolsListResult registerTool
  rcases h with h | h <;> rw [h] <;>
    rw [filter_dictInsert _ _ (fun w => by simp)]

/-- A replacement tool named `list`, used to instantiate claim C10. -/
def c10Tool : MCPTool :=
  ⟨"list", "替换工具", .fn false (fun _ => .ok .null), .obj [], .obj []⟩

/-- Witness for claim C10 at a concrete replacement tool named `list`. -/
theorem claim_C10_witness :
    (c10Tool.name = "list" ∨ c10Tool.name = "call") ∧
    (dictGet ("tools/" ++ c10Tool.name) (registerTool initTools c10Tool) = some c10Tool ∧
     toolsListResult (registerTool initTools c10Tool) = toolsListResult initTools) :=
  ⟨Or.inl rfl, claim_C10 initTools c10Tool (Or.inl rfl)⟩

/-! ## Claim C3 — empty and malformed bodies -/

/-- Claim C3 (counterexample): an empty request body does not produce
ParseError `-32700`; the dispatcher answers it with `-32600` instead. -/
theorem claim_C3_counterexample :
    envErrorCode (handleJsonrpc initTools 1 .empty) = some (-32600) ∧
    ((-32600 : Int) ≠ -32700) :=
  ⟨rfl, by decide⟩

/-- Claim C3 (amended): a malformed (non-JSON) body yields ParseError
`-32700`, but an empty body yields InvalidRequest `-32600`; in both cases
the response id is `None` — hence serialized with no `id` member — and no
`result` field is present. -/
theorem claim_C3_amended (tools : Registry) (fuel : Nat) (raw : String) :
    handleJsonrpc tools fuel .empty = createErrorResponse .null "无效的空请求" (-32600)
  ∧ handleJsonrpc tools fuel (.invalid raw) = createErrorResponse .null "无效的JSON" (-32700)
  ∧ envErrorCode (handleJsonrpc tools fuel .empty) = some (-32600)
  ∧ envErrorCode (handleJsonrpc tools fuel (.invalid raw)) = some (-32700)
  ∧ envHasField (handleJsonrpc tools fuel .empty) "id" = false
  ∧ envHasField (handleJsonrpc tools fuel (.invalid raw)) "id" = false
  ∧ envHasField (handleJsonrpc tools fuel .empty) "result" = false
  ∧ envHasField (handleJsonrpc tools fuel (.invalid raw)) "result" = false :=
  ⟨rfl, rfl, rfl, rfl, rfl, rfl, rfl, rfl⟩

/-! ## Claim C5 — result/error exclusivity in response envelopes -/

/-- A tool whose handler returns `None`, used to instantiate claim C5. -/
def c5Tool : MCPTool :=
  ⟨"noop", "返回None", .fn false (fun _ => .ok .null), .obj [], .obj []⟩

/-- Claim C5 (counterexample): when a handler returns `None`, the success
envelope contains neither a `result` field nor an `error` field —
`exclude_none` drops the `None` result — so it is not the case that exactly
one of the two is always populated. -/
theorem claim_C5_counterexample :
    envHasField (handleJsonrpc (registerTool initTools c5Tool) 1
      (.parsed (directRequest "noop" (.int 7) (.obj [])))) "result" = false
  ∧ envHasField (handleJsonrpc (registerTool initTools c5Tool) 1
      (.parsed (directRequest "noop" (.int 7) (.obj [])))) "error" = false :=
  ⟨rfl, rfl⟩

/-- Field shape of every `_create_error_response` envelope: the `error`
member is present and no `result` member is. -/
theorem envHasField_createError (rid : Value) (m : String) (c : Int) :
    envHasField (createErrorResponse rid m c) "error" = true ∧
    envHasField (createErrorResponse rid m c) "result" = false := by
  unfold createErrorResponse MCPResponse.dictExcludeNone envHasField envField
  cases h : rid.isNone <;> simp [h, dictGet, Value.isNone]

/-- Field shape of every `_create_success_response` envelope: no `error`
member, and a `result` member exactly when the result value is not `None`. -/
theorem envHasField_createSuccess (rid v : Value) :
    envHasField (createSuccessResponse rid v) "error" = false ∧
    envHasField (createSuccessResponse rid v) "result" = !v.isNone := by
  unfold createSuccessResponse MCPResponse.dictExcludeNone envHasField envField
  cases h : rid.isNone <;> cases hv : v.isNone <;> simp [h, hv, dictGet, Value.isNone]

/-- Every envelope the dispatcher produces is built by exactly one of
`_create_error_response` and `_create_success_response`. -/
theorem handleJsonrpc_envelope_cases (tools : Registry) (fuel : Nat) (body : RequestBody) :
    (∃ rid m c, handleJsonrpc tools fuel body = createErrorResponse rid m c) ∨
    (∃ rid v, handleJsonrpc tools fuel body = createSuccessResponse rid v) := by
  rcases body with _ | raw | data
  · exact Or.inl ⟨_, _, _, rfl⟩
  · exact Or.inl ⟨_, _, _, rfl⟩
  · cases data
    case arr xs => exact Or.inl ⟨_, _, _, rfl⟩
    case null => exact Or.inl ⟨_, _, _, rfl⟩
    case bool b => exact Or.inl ⟨_, _, _, rfl⟩
    case int n => exact Or.inl ⟨_, _, _, rfl⟩
    case str s => exact Or.inl ⟨_, _, _, rfl⟩
    case coroutine s => exact Or.inl ⟨_, _, _, rfl⟩
    case obj fs =>
      simp only [handleJsonrpc, handleSingleRequest]
      split
      · exact Or.inl ⟨_, _, _, rfl⟩
      · split
        · exact Or.inl ⟨_, _, _, rfl⟩
        · exact Or.inl ⟨_, _, _, rfl⟩
        · split
          · exact Or.inl ⟨_, _, _, rfl⟩
          · split
            · split
              · exact Or.inr ⟨_, _, rfl⟩
              · exact Or.inl ⟨_, _, _, rfl⟩
            · exact Or.inl ⟨_, _, _, rfl⟩
            · exact Or.inl ⟨_, _, _, rfl⟩

/-- `_call_handler` runs an ordinary handler's body to completion whether or
not the handler is a coroutine function (awaiting it when it is). -/
theorem callHandler_fn (tools : Registry) (fuel : Nat) (ia : Bool)
    (body : Value → PyResult) (p : Value) :
    callHandler tools fuel (.fn ia body) p = body p := by
  cases ia <;> rfl

/-- Routing a well-formed single request whose method is the namespaced name
of a registered tool: the dispatcher invokes that tool's handler through
`_call_handler` and converts the outcome. -/
theorem handleSingleRequest_direct (tools : Registry) (fuel : Nat) (n : String)
    (reqId p : Value) (t : MCPTool) (hreg : dictGet ("tools/" ++ n) tools = some t) :
    handleSingleRequest tools fuel (directRequest n reqId p) =
      match callHandler tools fuel t.handler p with
      | .ok v =>
        if isSerializable v then createSuccessResponse reqId v
        else createErrorResponse reqId ("服务器内部错误: " ++ coroutineDumpError) (-32603)
      | .mcpError m c => createErrorResponse reqId m c
      | .exn d => createErrorResponse reqId ("服务器内部错误: " ++ d) (-32603) := by
  simp [handleSingleRequest, directRequest, jsonGet, jsonGetD, jsonHasKey,
    isVersionTag, dictGet, hreg]

/-- Routing a well-formed single request addressed to the `tools/call`
meta-tool: the dispatcher runs `_handle_tools_call` on the inner params and
converts its outcome. -/
theorem handleSingleRequest_call (tools : Registry) (fuel : Nat) (n : String)
    (reqId p : Value) (callEntry : MCPTool)
    (hcall : dictGet "tools/call" tools = some callEntry)
    (hch : callEntry.handler = .toolsCall) :
    handleSingleRequest tools fuel (callRequest n reqId p) =
      match handleToolsCall tools fuel (.obj [("name", .str n), ("parameters", p)]) with
      | .ok v =>
        if isSerializable v then createSuccessResponse reqId v
        else createErrorResponse reqId ("服务器内部错误: " ++ coroutineDumpError) (-32603)
      | .mcpError m c => createErrorResponse reqId m c
      | .exn d => createErrorResponse reqId ("服务器内部错误: " ++ d) (-32603) := by
  simp [handleSingleRequest, callRequest, jsonGet, jsonGetD, jsonHasKey,
    isVersionTag, dictGet, hcall, callHandler, hch]

/-- `_handle_tools_call` on a registered sync handler: the returned value is
wrapped as `{"result": ...}`; a raised exception — `MCPError` included,
since `except Exception` catches it — is re-raised as
`MCPError(f"工具调用失败: {str(e)}")` with the default code `-32000`. -/
theorem handleToolsCall_sync (tools : Registry) (fuel : Nat) (n : String)
    (p : Value) (t : MCPTool) (body : Value → PyResult)
    (hreg : dictGet ("tools/" ++ n) tools = some t)
    (hh : t.handler = .fn false body) :
    handleToolsCall tools (fuel + 1) (.obj [("name", .str n), ("parameters", p)]) =
      match body p with
      | .ok v => .ok (.obj [("result", v)])
      | .mcpError m _ => .mcpError ("工具调用失败: " ++ m) (-32000)
      | .exn d => .mcpError ("工具调用失败: " ++ d) (-32000) := by
  simp only [handleToolsCall, jsonGet, jsonGetD, jsonHasKey, dictGet, pyStr]
  simp [hreg, hh]
  cases body p <;> rfl

/-- `_handle_tools_call` on a registered `async def` handler: the handler is
called without `await`, so the wrapped "result" is the unawaited coroutine
object, not the handler's value. -/
theorem handleToolsCall_async (tools : Registry) (fuel : Nat) (n : String)
    (p : Value) (t : MCPTool) (body : Value → PyResult)
    (hreg : dictGet ("tools/" ++ n) tools = some t)
    (hh : t.handler = .fn true body) :
    handleToolsCall tools (fuel + 1) (.obj [("name", .str n), ("parameters", p)]) =
      .ok (.obj [("result", .coroutine (body p))]) := by
  simp only [handleToolsCall, jsonGet, jsonGetD, jsonHasKey, dictGet, pyStr]
  simp [hreg, hh]

/-- Claim C5 (amended): at most one of `result` and `error` is ever
populated: every dispatcher envelope is either a failure envelope — which
carries `error` and never `result` — or a success envelope — which carries
no `error` and carries `result` exactly when the handler's value is not
`None`; for a `None` result, `exclude_none` drops the field and the
envelope carries neither. -/
theorem claim_C5_amended (tools : Registry) (fuel : Nat) (body : RequestBody) :
    ((∃ rid m c, handleJsonrpc tools fuel body = createErrorResponse rid m c) ∨
     (∃ rid v, handleJsonrpc tools fuel body = createSuccessResponse rid v))
  ∧ (∀ rid m c, envHasField (createErrorResponse rid m c) "error" = true
      ∧ envHasField (createErrorResponse rid m c) "result" = false)
  ∧ (∀ rid v, envHasField (createSuccessResponse rid v) "error" = false
      ∧ envHasField (createSuccessResponse rid v) "result" = !v.isNone) :=
  ⟨handleJsonrpc_envelope_cases tools fuel body,
   envHasField_createError, envHasField_createSuccess⟩

/-! ## Claim C1 — untyped handler exceptions -/

/-- A tool whose sync handler raises a non-`MCPError` exception with detail
`boom detail`, used to instantiate claim C1. -/
def c1Tool : MCPTool :=
  ⟨"boom", "抛出异常", .fn false (fun _ => .exn "boom detail"), .obj [], .obj []⟩

/-- Registry with `c1Tool` registered. -/
def c1Registry : Registry := registerTool initTools c1Tool

/-- Claim C1 (counterexample): a handler exception surfaced through
`tools/call` yields code `-32000`, not InternalError `-32603`, and a direct
invocation surfaces the exception's detail (`boom detail`) inside the
returned message rather than a generic message. -/
theorem claim_C1_counterexample :
    envErrorCode (handleJsonrpc c1Registry 10
      (.parsed (callRequest "boom" (.int 1) (.obj [])))) = some (-32000)
  ∧ ((-32000 : Int) ≠ -32603)
  ∧ envErrorMessage (handleJsonrpc c1Registry 10
      (.parsed (directRequest "boom" (.int 2) (.obj []))))
      = some ("服务器内部错误: " ++ "boom detail") :=
  ⟨rfl, by decide, rfl⟩

/-- Claim C1 (amended): when a registered tool's handler raises a
non-`MCPError` exception with detail `d`, a direct `tools/<name>` request
is answered with code `-32603` and message `服务器内部错误: d` — the detail is
surfaced to the caller, not only logged — while a `tools/call` request
(for a sync handler, whose body actually runs there) is answered with code
`-32000` and message `工具调用失败: d`, because `_handle_tools_call` re-wraps
the exception in an `MCPError` with the default code; in both cases no
`result` field is present. -/
theorem claim_C1_amended (tools : Registry) (fuel : Nat) (n d : String)
    (t callEntry : MCPTool) (reqId p : Value) (ia : Bool) (body : Value → PyResult)
    (hreg : dictGet ("tools/" ++ n) tools = some t)
    (hcall : dictGet "tools/call" tools = some callEntry)
    (hch : callEntry.handler = .toolsCall)
    (hh : t.handler = .fn ia body)
    (hb : body p = .exn d) :
    handleSingleRequest tools fuel (directRequest n reqId p)
      = createErrorResponse reqId ("服务器内部错误: " ++ d) (-32603)
  ∧ (ia = false →
      handleSingleRequest tools (fuel + 1) (callRequest n reqId p)
        = createErrorResponse reqId ("工具调用失败: " ++ d) (-32000))
  ∧ envHasField (createErrorResponse reqId ("服务器内部错误: " ++ d) (-32603)) "result" = false
  ∧ envHasField (createErrorResponse reqId ("工具调用失败: " ++ d) (-32000)) "result" = false := by
  refine ⟨?_, ?_, (envHasField_createError _ _ _).2, (envHasField_createError _ _ _).2⟩
  · rw [handleSingleRequest_direct tools fuel n reqId p t hreg, hh, callHandler_fn, hb]
  · intro hia
    subst hia
    rw [handleSingleRequest_call tools (fuel + 1) n reqId p callEntry hcall hch,
      handleToolsCall_sync tools fuel n p t body hreg hh, hb]

/-- Witness for amended claim C1 at the concrete raising tool `boom`. -/
theorem claim_C1_witness :
    dictGet ("tools/" ++ "boom") c1Registry = some c1Tool ∧
    c1Tool.handler = .fn false (fun _ => .exn "boom detail") ∧
    (handleSingleRequest c1Registry 3 (directRequest "boom" (.int 2) (.obj []))
        = createErrorResponse (.int 2) ("服务器内部错误: " ++ "boom detail") (-32603)
     ∧ (false = false →
        handleSingleRequest c1Registry (3 + 1) (callRequest "boom" (.int 2) (.obj []))
          = createErrorResponse (.int 2) ("工具调用失败: " ++ "boom detail") (-32000))
     ∧ envHasField (createErrorResponse (.int 2)
          ("服务器内部错误: " ++ "boom detail") (-32603)) "result" = false
     ∧ envHasField (createErrorResponse (.int 2)
          ("工具调用失败: " ++ "boom detail") (-32000)) "result" = false) :=
  ⟨rfl, rfl,
   claim_C1_amended c1Registry 3 "boom" "boom detail" c1Tool builtinCallTool
     (.int 2) (.obj []) false (fun _ => .exn "boom detail") rfl rfl rfl rfl rfl⟩

/-! ## Claim C4 — typed `MCPError` pass-through -/

/-- A tool whose sync handler raises `MCPError("boom", -32099)`, used to
instantiate claim C4. -/
def c4Tool : MCPTool :=
  ⟨"typederr", "抛出MCPError", .fn false (fun _ => .mcpError "boom" (-32099)), .obj [], .obj []⟩

/-- Registry with `c4Tool` registered. -/
def c4Registry : Registry := registerTool initTools c4Tool

/-- Claim C4 (counterexample): a handler's `MCPError("boom", -32099)`
surfaced through `tools/call` is not passed through verbatim: the envelope
carries code `-32000` and the prefixed message `工具调用失败: boom`. -/
theorem claim_C4_counterexample :
    envErrorCode (handleJsonrpc c4Registry 10
      (.parsed (callRequest "typederr" (.int 1) (.obj [])))) = some (-32000)
  ∧ envErrorMessage (handleJsonrpc c4Registry 10
      (.parsed (callRequest "typederr" (.int 1) (.obj []))))
      = some ("工具调用失败: " ++ "boom")
  ∧ ((-32000 : Int) ≠ -32099) :=
  ⟨rfl, rfl, by decide⟩

/-- Claim C4 (amended): a handler's typed `MCPError` carrying code `c` and
message `m` is passed through verbatim only on a direct `tools/<name>`
invocation; through the `tools/call` meta-tool the `except Exception`
clause of `_handle_tools_call` catches it and re-raises
`MCPError("工具调用失败: " + m)` with the default code `-32000`, so the caller
sees that prefixed message and code instead. -/
theorem claim_C4_amended (tools : Registry) (fuel : Nat) (n m : String) (c : Int)
    (t callEntry : MCPTool) (reqId p : Value) (ia : Bool) (body : Value → PyResult)
    (hreg : dictGet ("tools/" ++ n) tools = some t)
    (hcall : dictGet "tools/call" tools = some callEntry)
    (hch : callEntry.handler = .toolsCall)
    (hh : t.handler = .fn ia body)
    (hb : body p = .mcpError m c) :
    handleSingleRequest tools fuel (directRequest n reqId p)
      = createErrorResponse reqId m c
  ∧ (ia = false →
      handleSingleRequest tools (fuel + 1) (callRequest n reqId p)
        = createErrorResponse reqId ("工具调用失败: " ++ m) (-32000)) := by
  constructor
  · rw [handleSingleRequest_direct tools fuel n reqId p t hreg, hh, callHandler_fn, hb]
  · intro hia
    subst hia
    rw [handleSingleRequest_call tools (fuel + 1) n reqId p callEntry hcall hch,
      handleToolsCall_sync tools fuel n p t body hreg hh, hb]

/-- Witness for amended claim C4 at the concrete typed-error tool. -/
theorem claim_C4_witness :
    dictGet ("tools/" ++ "typederr") c4Registry = some c4Tool ∧
    c4Tool.handler = .fn false (fun _ => .mcpError "boom" (-32099)) ∧
    (handleSingleRequest c4Registry 3 (directRequest "typederr" (.int 5) (.obj []))
        = createErrorResponse (.int 5) "boom" (-32099)
     ∧ (false = false →
        handleSingleRequest c4Registry (3 + 1) (callRequest "typederr" (.int 5) (.obj []))
          = createErrorResponse (.int 5) ("工具调用失败: " ++ "boom") (-32000))) :=
  ⟨rfl, rfl,
   claim_C4_amended c4Registry 3 "typederr" "boom" (-32099) c4Tool builtinCallTool
     (.int 5) (.obj []) false (fun _ => .mcpError "boom" (-32099)) rfl rfl rfl rfl rfl⟩

/-! ## Claim C2 — dual addressing equivalence -/

/-- An `async def` tool whose body produces the string `"v"`, used to
instantiate claim C2. -/
def c2Tool : MCPTool :=
  ⟨"aecho", "异步返回", .fn true (fun _ => .ok (.str "v")), .obj [], .obj []⟩

/-- Registry with `c2Tool` registered. -/
def c2Registry : Registry := registerTool initTools c2Tool

/-- Claim C2 (counterexample): for a suspending (async) handler the dual
addressing is not equivalent: the direct `tools/aecho` request succeeds
with the handler's value, while the same call through `tools/call` is never
awaited — serializing the unawaited coroutine fails and the caller gets an
InternalError envelope with no result at all. -/
theorem claim_C2_counterexample :
    envResult (handleJsonrpc c2Registry 10
      (.parsed (directRequest "aecho" (.int 1) (.obj [])))) = some (.str "v")
  ∧ envErrorCode (handleJsonrpc c2Registry 10
      (.parsed (callRequest "aecho" (.int 2) (.obj [])))) = some (-32603)
  ∧ envResult (handleJsonrpc c2Registry 10
      (.parsed (callRequest "aecho" (.int 2) (.obj [])))) = none
  ∧ envErrorMessage (handleJsonrpc c2Registry 10
      (.parsed (callRequest "aecho" (.int 2) (.obj []))))
      = some ("服务器内部错误: " ++ coroutineDumpError) :=
  ⟨rfl, rfl, rfl, rfl⟩

/-- Claim C2 (amended): the dual-addressing equivalence holds for handlers
that run to completion immediately (sync handlers): `tools/call` with
`{name, parameters}` yields `{"result": r}` where `r` is exactly the value
a direct `tools/<name>` request returns. A suspending (async) handler is
awaited on the direct path but not through `tools/call`, where the raw call
returns an unawaited coroutine whose serialization fails (see the
counterexample). -/
theorem claim_C2_amended (tools : Registry) (fuel : Nat) (n : String)
    (t callEntry : MCPTool) (reqId p v : Value) (body : Value → PyResult)
    (hreg : dictGet ("tools/" ++ n) tools = some t)
    (hcall : dictGet "tools/call" tools = some callEntry)
    (hch : callEntry.handler = .toolsCall)
    (hh : t.handler = .fn false body)
    (hb : body p = .ok v)
    (hser : isSerializable v = true) :
    handleSingleRequest tools fuel (directRequest n reqId p)
      = createSuccessResponse reqId v
  ∧ handleSingleRequest tools (fuel + 1) (callRequest n reqId p)
      = createSuccessResponse reqId (.obj [("result", v)]) := by
  constructor
  · rw [handleSingleRequest_direct tools fuel n reqId p t hreg, hh, callHandler_fn, hb]
    simp [hser]
  · rw [handleSingleRequest_call tools (fuel + 1) n reqId p callEntry hcall hch,
      handleToolsCall_sync tools fuel n p t body hreg hh, hb]
    simp [isSerializable, isSerializableFields, hser]

/-- A sync tool returning the string `"v"`, used to instantiate the amended
claim C2. -/
def c2SyncTool : MCPTool :=
  ⟨"echo", "同步返回", .fn false (fun _ => .ok (.str "v")), .obj [], .obj []⟩

/-- Registry with `c2SyncTool` registered. -/
def c2SyncRegistry : Registry := registerTool initTools c2SyncTool

/-- Witness for amended claim C2 at the concrete sync tool `echo`. -/
theorem claim_C2_witness :
    dictGet ("tools/" ++ "echo") c2SyncRegistry = some c2SyncTool ∧
    isSerializable (.str "v") = true ∧
    (handleSingleRequest c2SyncRegistry 3 (directRequest "echo" (.int 9) (.obj []))
        = createSuccessResponse (.int 9) (.str "v")
     ∧ handleSingleRequest c2SyncRegistry (3 + 1) (callRequest "echo" (.int 9) (.obj []))
        = createSuccessResponse (.int 9) (.obj [("result", .str "v")])) :=
  ⟨rfl, rfl,
   claim_C2_amended c2SyncRegistry 3 "echo" c2SyncTool builtinCallTool
     (.int 9) (.obj []) (.str "v") (fun _ => .ok (.str "v")) rfl rfl rfl rfl rfl rfl⟩

/-! ## Claim C6 — sync signal broadcast semantics -/

/-- A non-empty lock name is not falsy. -/
theorem pyFalsyStr_some_ne {L : String} (hL : L ≠ "") :
    pyFalsyStr (some L) = false := by
  unfold pyFalsyStr
  cases h : L.isEmpty
  · simp [h]
  · exact absurd ((String.isEmpty_iff L).mp h) hL

/-- `sync_operations` with action `set`: auto-creates the named event if
absent, then sets it. -/
theorem syncOperations_set (st : SyncState) {L : String} (hL : L ≠ "") :
    syncOperations st "set" (some L) =
      (dictInsert L true st, ⟨true, "已设置锁 " ++ L⟩) := by
  unfold syncOperations
  simp [pyFalsyStr_some_ne hL]

/-- `sync_operations` with action `create`: unconditionally installs a
fresh, unset event. -/
theorem syncOperations_create (st : SyncState) {L : String} (hL : L ≠ "") :
    syncOperations st "create" (some L) =
      (dictInsert L false st, ⟨true, "已创建锁 " ++ L⟩) := by
  unfold syncOperations
  simp [pyFalsyStr_some_ne hL]

/-- `sync_operations` with action `wait` on a set event: succeeds
immediately and leaves the state unchanged, so any number of waiters
succeed while the event stays set. -/
theorem syncOperations_wait_set (st : SyncState) {L : String} (hL : L ≠ "")
    (hset : dictGet L st = some true) :
    syncOperations st "wait" (some L) = (st, ⟨true, "锁 " ++ L ++ " 已触发"⟩) := by
  unfold syncOperations
  simp [pyFalsyStr_some_ne hL, hset]

/-- `sync_operations` with action `wait` on an absent event: auto-creates
it unset, and (with no concurrent setter in the trace) times out. -/
theorem syncOperations_wait_absent (st : SyncState) {L : String} (hL : L ≠ "")
    (habs : dictGet L st = none) :
    syncOperations st "wait" (some L) =
      (dictInsert L false st, ⟨false, "等待锁 " ++ L ++ " 超时"⟩) := by
  unfold syncOperations
  simp [pyFalsyStr_some_ne hL, habs]

/-- Any single `sync_operations` call that is neither `release` nor
`create` on the signal `L` leaves a set `L` set. -/
theorem syncOp_preserves_set {st : SyncState} {L : String} (a : String)
    (l : Option String) (hset : dictGet L st = some true)
    (hrel : (a, l) ≠ ("release", some L)) (hcre : (a, l) ≠ ("create", some L)) :
    dictGet L (syncOperations st a l).1 = some true := by
  unfold syncOperations
  by_cases hf : pyFalsyStr l = true
  · simp [hf, hset]
  · rcases l with _ | s
    · simp [pyFalsyStr] at hf
    · have hsL : a = "create" → s ≠ L := by
        intro ha hs
        exact hcre (by rw [ha, hs])
      have hsR : a = "release" → s ≠ L := by
        intro ha hs
        exact hrel (by rw [ha, hs])
      simp only [hf, Bool.false_eq_true, if_false, Option.getD_some]
      by_cases hc : a = "create"
      · simp [hc, dictGet_insert_ne (hsL hc), hset]
      · by_cases hw : a = "wait"
        · simp only [hc, if_false, hw, if_true]
          cases habs : dictGet s st with
          | none =>
            have hne : s ≠ L := fun hs => by
              rw [hs] at habs
              exact absurd (hset ▸ habs) (by simp)
            simp [dictGet_insert_ne hne, hset]
          | some ev => simp [hset]
        · by_cases hs : a = "set"
          · by_cases hsl : s = L
            · simp [hc, hw, hs, hsl, dictGet_insert_self]
            · simp [hc, hw, hs, dictGet_insert_ne hsl, hset]
          · by_cases hr : a = "release"
            · cases habs : dictGet s st with
              | none => simp [hc, hw, hs, hr, habs, hset]
              | some ev => simp [hc, hw, hs, hr, habs, dictGet_insert_ne (hsR hr), hset]
            · simp [hc, hw, hs, hr, hset]

/-- A set signal stays set across any sequence of operations containing no
`release` and no `create` for it. -/
theorem runSync_preserves_set {L : String} (ops : List (String × Option String))
    (st : SyncState) (hset : dictGet L st = some true)
    (hops : ∀ op ∈ ops, op ≠ ("release", some L) ∧ op ≠ ("create", some L)) :
    dictGet L (runSync st ops) = some true := by
  induction ops generalizing st with
  | nil => exact hset
  | cons op rest ih =>
    obtain ⟨a, l⟩ := op
    have h := hops (a, l) (List.mem_cons_self _ _)
    exact ih (syncOperations st a l).1
      (syncOp_preserves_set a l hset h.1 h.2)
      (fun o ho => hops o (List.mem_cons_of_mem _ ho))

/-- Claim C6 (amended): once `set(L)` has occurred, every `wait(L, timeout)`
— by any number of waiters — succeeds until a `release(L)` **or another
`create(L)`** intervenes: `wait` and `set` auto-create an absent signal,
but an explicit `create` call is not a neutral convenience — it
unconditionally replaces the signal with a fresh unset event, so a
`create(L)` after `set(L)` resets `L` and changes the outcome of
subsequent waits (see the counterexample). -/
theorem claim_C6_amended (L : String) (hL : L ≠ "") (st : SyncState)
    (post : List (String × Option String))
    (hpost : ∀ op ∈ post, op ≠ ("release", some L) ∧ op ≠ ("create", some L)) :
    (syncOperations (runSync (syncOperations st "set" (some L)).1 post)
        "wait" (some L)).2.success = true
  ∧ (∀ st₂, dictGet L st₂ = some true →
       syncOperations st₂ "wait" (some L) = (st₂, ⟨true, "锁 " ++ L ++ " 已触发"⟩))
  ∧ (∀ st₃, dictGet L st₃ = none →
       dictGet L (syncOperations st₃ "wait" (some L)).1 = some false
     ∧ dictGet L (syncOperations st₃ "set" (some L)).1 = some true)
  ∧ (∀ st₄, dictGet L (syncOperations st₄ "create" (some L)).1 = some false) := by
  refine ⟨?_, fun st₂ h => syncOperations_wait_set st₂ hL h, ?_, ?_⟩
  · have hstill : dictGet L (runSync (syncOperations st "set" (some L)).1 post) = some true := by
      apply runSync_preserves_set post _ _ hpost
      rw [syncOperations_set st hL]
      exact dictGet_insert_self _ _ _
    rw [syncOperations_wait_set _ hL hstill]
  · intro st₃ h
    constructor
    · rw [syncOperations_wait_absent st₃ hL h]
      exact dictGet_insert_self _ _ _
    · rw [syncOperations_set st₃ hL]
      exact dictGet_insert_self _ _ _
  · intro st₄
    rw [syncOperations_create st₄ hL]
    exact dictGet_insert_self _ _ _

/-- Claim C6 (counterexample): after `set("L")` with no intervening
`release`, a `wait("L")` succeeds — but if an explicit `create("L")`
intervenes, the same `wait` times out: `create` is not outcome-preserving
between `set` and `release`. -/
theorem claim_C6_counterexample :
    (syncOperations (runSync [] [("set", some "L")]) "wait" (some "L")).2.success = true
  ∧ (syncOperations (runSync [] [("set", some "L"), ("create", some "L")])
      "wait" (some "L")).2.success = false :=
  ⟨rfl, rfl⟩

/-- Witness for amended claim C6: a set signal survives an unrelated
operation sequence and the wait succeeds. -/
theorem claim_C6_witness :
    ("L" : String) ≠ ""
  ∧ ((syncOperations (runSync (syncOperations [] "set" (some "L")).1
        [("set", some "M"), ("wait", some "L"), ("release", some "M")])
        "wait" (some "L")).2.success = true
     ∧ (∀ st₂, dictGet "L" st₂ = some true →
          syncOperations st₂ "wait" (some "L") = (st₂, ⟨true, "锁 " ++ "L" ++ " 已触发"⟩))
     ∧ (∀ st₃, dictGet "L" st₃ = none →
          dictGet "L" (syncOperations st₃ "wait" (some "L")).1 = some false
        ∧ dictGet "L" (syncOperations st₃ "set" (some "L")).1 = some true)
     ∧ (∀ st₄, dictGet "L" (syncOperations st₄ "create" (some "L")).1 = some false)) :=
  ⟨by decide,
   claim_C6_amended "L" (by decide) []
     [("set", some "M"), ("wait", some "L"), ("release", some "M")]
     (by intro op hop; fin_cases hop <;> exact ⟨by decide, by decide⟩)⟩

/-! ## Claim C8 — blackboard share/get -/

/-- Claim C8 (counterexample): the blackboard does not accept every
JSON-serializable value — `share("k", null)` is rejected (`data_value is
None` fails validation), after which `get("k")` still reports not-found;
and the empty key (falsy in Python) is rejected as well. -/
theorem claim_C8_counterexample :
    (shareBetweenDevicesData [] "share_data" (some "k") .null).2
      = .obj [("success", .bool false), ("message", .str "未指定数据值")]
  ∧ (shareBetweenDevicesData
      (shareBetweenDevicesData [] "share_data" (some "k") .null).1
      "get_data" (some "k") .null).2
      = .obj [("success", .bool false), ("message", .str ("共享数据中不存在键: " ++ "k"))]
  ∧ (shareBetweenDevicesData [] "share_data" (some "") (.str "v")).2
      = .obj [("success", .bool false), ("message", .str "未指定数据键")] :=
  ⟨rfl, rfl, rfl⟩

/-- Claim C8 (amended): for every non-empty key `k` and every non-`None`
JSON-serializable value `v`, `share(k, v)` upserts — over any prior
blackboard state, so repeated shares of the same key are last-writer-wins —
and a subsequent `get(k)` succeeds returning exactly `v`; `get(k)` for a
key not present fails with the not-found message. `None` values and empty
keys are rejected by validation (see the counterexample). -/
theorem claim_C8_amended (st : SharedData) (k : String) (v : Value)
    (hk : k ≠ "") (hv : v.isNone = false) :
    (shareBetweenDevicesData st "share_data" (some k) v).1 = dictInsert k v st
  ∧ (shareBetweenDevicesData st "share_data" (some k) v).2
      = .obj [("success", .bool true), ("message", .str ("数据已共享，键: " ++ k))]
  ∧ (shareBetweenDevicesData (shareBetweenDevicesData st "share_data" (some k) v).1
        "get_data" (some k) .null).2
      = .obj [("success", .bool true), ("data", v)]
  ∧ (dictGet k st = none →
      (shareBetweenDevicesData st "get_data" (some k) .null).2
        = .obj [("success", .bool false), ("message", .str ("共享数据中不存在键: " ++ k))]) := by
  have hshare : shareBetweenDevicesData st "share_data" (some k) v =
      (dictInsert k v st,
       .obj [("success", .bool true), ("message", .str ("数据已共享，键: " ++ k))]) := by
    unfold shareBetweenDevicesData
    simp [pyFalsyStr_some_ne hk, hv]
  refine ⟨by rw [hshare], by rw [hshare], ?_, ?_⟩
  · rw [hshare]
    unfold shareBetweenDevicesData
    simp [pyFalsyStr_some_ne hk, dictGet_insert_self]
  · intro habs
    unfold shareBetweenDevicesData
    simp [pyFalsyStr_some_ne hk, habs]

/-- Witness for amended claim C8: a round trip at key `k` and value `"v"`
over the empty blackboard. -/
theorem claim_C8_witness :
    ("k" : String) ≠ "" ∧ Value.isNone (.str "v") = false
  ∧ ((shareBetweenDevicesData [] "share_data" (some "k") (.str "v")).1
        = dictInsert "k" (.str "v") []
     ∧ (shareBetweenDevicesData [] "share_data" (some "k") (.str "v")).2
        = .obj [("success", .bool true), ("message", .str ("数据已共享，键: " ++ "k"))]
     ∧ (shareBetweenDevicesData
          (shareBetweenDevicesData [] "share_data" (some "k") (.str "v")).1
          "get_data" (some "k") .null).2
        = .obj [("success", .bool true), ("data", .str "v")]
     ∧ (dictGet "k" ([] : SharedData) = none →
        (shareBetweenDevicesData [] "get_data" (some "k") .null).2
          = .obj [("success", .bool false),
                  ("message", .str ("共享数据中不存在键: " ++ "k"))])) :=
  ⟨by decide, rfl, claim_C8_amended [] "k" (.str "v") (by decide) rfl⟩

/-! ## Claim C9 — idempotent, exception-isolating cleanup -/

/-- Each controller iteration of the cleanup loop terminates normally (its
try/except swallows a raising hook), records the hook invocation whenever
the controller has one, and logs the failure when it raises. -/
theorem pyTryExcept_cleanupHook (c : ControllerModel) :
    ∃ ev, pyTryExcept (callCleanupHook c) (CleanupEvent.hookFailedLogged c.name) = .norm ev
      ∧ (c.hasCleanup = true → CleanupEvent.hookCalled c.name ∈ ev)
      ∧ (∀ d, c.hasCleanup = true → c.cleanupRaises = some d →
          CleanupEvent.hookFailedLogged c.name d ∈ ev) := by
  unfold pyTryExcept callCleanupHook
  cases hc : c.hasCleanup
  · exact ⟨[], by simp, by simp, by simp⟩
  · cases hr : c.cleanupRaises with
    | none =>
      refine ⟨[.hookCalled c.name], by simp, by simp, ?_⟩
      intro d _ hd
      simp [hr] at hd
    | some d =>
      refine ⟨[.hookCalled c.name, .hookFailedLogged c.name d], by simp, by simp, ?_⟩
      intro d₁ _ hd
      cases hd
      simp

/-- The controller loop of `cleanup` terminates normally for every
controller list, and its trace contains each controller's hook invocation
and each logged failure. -/
theorem cleanupControllersLoop_norm (cs : List ControllerModel) :
    ∃ ev, cleanupControllersLoop cs = .norm ev
      ∧ (∀ c ∈ cs, c.hasCleanup = true → CleanupEvent.hookCalled c.name ∈ ev)
      ∧ (∀ c ∈ cs, ∀ d, c.hasCleanup = true → c.cleanupRaises = some d →
          CleanupEvent.hookFailedLogged c.name d ∈ ev) := by
  induction cs with
  | nil => exact ⟨[], rfl, by simp, by simp⟩
  | cons c rest ih =>
    obtain ⟨ev, hev, hcall, hfail⟩ := ih
    obtain ⟨hev₀, h₀, hc₀, hf₀⟩ := pyTryExcept_cleanupHook c
    refine ⟨hev₀ ++ ev, ?_, ?_, ?_⟩
    · unfold cleanupControllersLoop
      rw [h₀, hev]
      rfl
    · intro c₁ hc₁ hh
      rcases List.mem_cons.mp hc₁ with h | h
      · subst h
        exact List.mem_append_left _ (hc₀ hh)
      · exact List.mem_append_right _ (hcall c₁ h hh)
    · intro c₁ hc₁ d hh hd
      rcases List.mem_cons.mp hc₁ with h | h
      · subst h
        exact List.mem_append_left _ (hf₀ d hh hd)
      · exact List.mem_append_right _ (hfail c₁ h d hh hd)

/-- The thread loop of `cleanup` only checks liveness and logs; it always
terminates normally. -/
theorem cleanupThreadsLoop_norm (ts : List ThreadModel) :
    ∃ ev, cleanupThreadsLoop ts = .norm ev := by
  induction ts with
  | nil => exact ⟨[], rfl⟩
  | cons t rest ih =>
    obtain ⟨ev, hev⟩ := ih
    cases ht : t.isAlive
    · refine ⟨ev, ?_⟩
      unfold cleanupThreadsLoop
      rw [hev, ht]
      rfl
    · refine ⟨.threadChecked t.name :: ev, ?_⟩
      unfold cleanupThreadsLoop
      rw [hev, ht]
      rfl

/-- Claim C9 (confirmed): `cleanup()` never raises — it terminates normally
on every resource state, and since it does not mutate the tracked
resources, any number of repeated invocations (normal exit, the SIGTERM
handler and the SIGINT handler all delegate to the same `cleanup`) behave
identically; it iterates every tracked controller, and one controller's
raising cleanup hook is caught and logged without preventing the remaining
controllers' hooks from being invoked. -/
theorem claim_C9 (res : Resources) :
    (mcpCleanup res).isNorm = true
  ∧ (∀ signum, handleSignal res signum = mcpCleanup res)
  ∧ (∀ c ∈ res.controllers, c.hasCleanup = true →
       CleanupEvent.hookCalled c.name ∈ (mcpCleanup res).events)
  ∧ (∀ c ∈ res.controllers, ∀ d, c.hasCleanup = true → c.cleanupRaises = some d →
       CleanupEvent.hookFailedLogged c.name d ∈ (mcpCleanup res).events) := by
  obtain ⟨evT, hevT⟩ := cleanupThreadsLoop_norm res.running_threads
  obtain ⟨evC, hevC, hcall, hfail⟩ := cleanupControllersLoop_norm res.controllers
  have hrun : mcpCleanup res = .norm (evT ++ evC) := by
    unfold mcpCleanup
    rw [hevT, hevC]
    rfl
  refine ⟨by rw [hrun]; rfl, fun _ => rfl, ?_, ?_⟩
  · intro c hc hh
    rw [hrun]
    exact List.mem_append_right _ (hcall c hc hh)
  · intro c hc d hh hd
    rw [hrun]
    exact List.mem_append_right _ (hfail c hc d hh hd)

/-- Concrete resources for the claim C9 witness: a live thread and two
controllers with hooks, the first of which raises. -/
def c9Res : Resources :=
  ⟨[⟨"worker", true⟩], [⟨"A", true, some "fail A"⟩, ⟨"B", true, none⟩]⟩

/-- Witness for claim C9: with a raising first controller, cleanup still
terminates normally, invokes the second controller's hook, and logs the
first one's failure. -/
theorem claim_C9_witness :
    (mcpCleanup c9Res).isNorm = true
  ∧ CleanupEvent.hookCalled "B" ∈ (mcpCleanup c9Res).events
  ∧ CleanupEvent.hookFailedLogged "A" "fail A" ∈ (mcpCleanup c9Res).events :=
  ⟨(claim_C9 c9Res).1,
   (claim_C9 c9Res).2.2.1 ⟨"B", true, none⟩ (by simp [c9Res]) rfl,
   (claim_C9 c9Res).2.2.2 ⟨"A", true, some "fail A"⟩ (by simp [c9Res]) "fail A" rfl rfl⟩

/-! ## Claim C7 — schema inference -/

/-- The `required` component of the parameter-loop fold: exactly the
non-skipped parameters without a default value, in declaration order. -/
theorem buildFold_required (doc : String) (ps : List SigParam)
    (acc : List (String × Value) × List String) :
    (ps.foldl (buildStep doc) acc).2
      = acc.2 ++ (ps.filter fun p => !skipParam p && !p.hasDefault).map SigParam.name := by
  induction ps generalizing acc with
  | nil => simp
  | cons p rest ih =>
    simp only [List.foldl_cons, List.filter_cons]
    by_cases hs : skipParam p
    · rw [ih]
      simp [buildStep, hs]
    · by_cases hd : p.hasDefault
      · rw [ih]
        simp [buildStep, hs, hd]
      · rw [ih]
        simp [buildStep, hs, hd]

/-- The parameter loop leaves a key untouched when no processed parameter
carries that name. -/
theorem buildFold_props_notmem (doc : String) (ps : List SigParam)
    (acc : List (String × Value) × List String) (k : String)
    (hk : ∀ p ∈ ps, skipParam p = true ∨ p.name ≠ k) :
    dictGet k (ps.foldl (buildStep doc) acc).1 = dictGet k acc.1 := by
  induction ps generalizing acc with
  | nil => rfl
  | cons p rest ih =>
    simp only [List.foldl_cons]
    rw [ih _ (fun q hq => hk q (List.mem_cons_of_mem _ hq))]
    rcases hk p (List.mem_cons_self _ _) with h | h
    · simp [buildStep, h]
    · by_cases hs : skipParam p
      · simp [buildStep, hs]
      · simp [buildStep, hs, dictGet_insert_ne h]

/-- Under distinct parameter names, the `properties` dict maps each kept
parameter to its built property object. -/
theorem buildFold_props_mem (doc : String) (ps : List SigParam)
    (acc : List (String × Value) × List String) (p : SigParam)
    (hnd : ((ps.filter fun q => !skipParam q).map SigParam.name).Nodup)
    (hp : p ∈ ps) (hs : skipParam p = false) :
    dictGet p.name (ps.foldl (buildStep doc) acc).1 = some (paramProperty doc p) := by
  induction ps generalizing acc with
  | nil => cases hp
  | cons q rest ih =>
    rcases List.mem_cons.mp hp with h | h
    · subst h
      simp only [List.foldl_cons]
      simp only [List.filter_cons, hs, Bool.not_false, if_true] at hnd
      rw [List.map_cons, List.nodup_cons] at hnd
      have hrest : ∀ r ∈ rest, skipParam r = true ∨ r.name ≠ p.name := by
        intro r hr
        by_cases hsr : skipParam r
        · exact Or.inl hsr
        · right
          intro hname
          exact hnd.1 (hname ▸ List.mem_map_of_mem SigParam.name
            (List.mem_filter.mpr ⟨hr, by simp [hsr]⟩))
      rw [buildFold_props_notmem doc rest _ _ hrest]
      simp [buildStep, hs, dictGet_insert_self]
    · simp only [List.foldl_cons]
      have hnd₂ : ((rest.filter fun q => !skipParam q).map SigParam.name).Nodup := by
        by_cases hq : skipParam q
        · simpa [List.filter_cons, hq] using hnd
        · simp only [List.filter_cons, hq, Bool.not_false, if_true, List.map_cons,
            List.nodup_cons] at hnd
          exact hnd.2
      exact ih _ hnd₂ h

/-- Field contents of a per-parameter property object: the mapped `type`,
an `items` sub-schema exactly when the annotation mapped to an array, and
a `description` exactly when the docstring names the parameter. -/
theorem paramProperty_fields (doc : String) (p : SigParam) :
    jsonGet (paramProperty doc p) "type" = some (.str (paramTypeOf p.ann).1)
  ∧ jsonGet (paramProperty doc p) "items"
      = (paramTypeOf p.ann).2.map (fun it => Value.obj [("type", .str it)])
  ∧ jsonGet (paramProperty doc p) "description"
      = (docDescription doc p.name).map Value.str := by
  unfold paramProperty
  cases hit : (paramTypeOf p.ann).2 <;> cases hdd : docDescription doc p.name <;>
    simp [jsonGet, dictGet, hit, hdd]

/-- The built schema's `properties` entry for a kept parameter. -/
theorem buildInputSchema_props (doc : String) (ps : List SigParam) (p : SigParam)
    (hnd : ((ps.filter fun q => !skipParam q).map SigParam.name).Nodup)
    (hp : p ∈ ps) (hs : skipParam p = false) :
    schemaProperty (buildInputSchema doc ps) p.name = some (paramProperty doc p) := by
  unfold buildInputSchema schemaProperty
  cases h : (ps.foldl (buildStep doc) ([], [])).2.isEmpty <;>
    simp [jsonGet, dictGet, h, buildFold_props_mem doc ps _ p hnd hp hs]

/-- The built schema's `required` list (absent field read as `[]`). -/
theorem buildInputSchema_required (doc : String) (ps : List SigParam) :
    schemaRequired (buildInputSchema doc ps)
      = (ps.filter fun q => !skipParam q && !q.hasDefault).map
          (fun q => Value.str q.name) := by
  simp only [buildInputSchema, schemaRequired]
  have hreq := buildFold_required doc ps ([], [])
  rw [List.nil_append] at hreq
  cases h : (ps.foldl (buildStep doc) ([], [])).2.isEmpty
  · rw [hreq] at h
    rw [hreq]
    simp [jsonGet, dictGet, h, List.map_map, Function.comp]
  · rw [hreq] at h
    rw [hreq]
    rw [List.isEmpty_iff] at h
    have hfil := List.map_eq_nil_iff.mp h
    rw [hfil]
    simp [jsonGet, dictGet]

/-- Claim C7 (counterexample): an array-of-primitive annotation other than
`List[str]`/`List[int]` is not mapped to an array schema — a `List[float]`
parameter falls through the `elif` chain to plain `"string"` with no
`items` sub-schema. -/
theorem claim_C7_counterexample :
    schemaProperty (buildInputSchema "" [⟨"xs", .list .float, false⟩]) "xs"
      = some (.obj [("type", .str "string")])
  ∧ jsonGet (.obj [("type", Value.str "string")]) "items" = none
  ∧ ("string" : String) ≠ "array" :=
  ⟨rfl, rfl, by decide⟩

/-- Claim C7 (amended): for a handler's declared parameters with distinct
names (excluding the `self` receiver and the `params` context argument),
schema inference maps `str`/`int`/`float`/`bool` to
`string`/`integer`/`number`/`boolean`, unannotated parameters to `string`,
and exactly `List[str]` and `List[int]` — not every array-of-primitive
annotation, see the counterexample — to `array` with an `items` sub-schema
naming the element type; exactly the kept parameters without a default
appear in `required`, in order; and a parameter's `description` is present
iff a (stripped) docstring line starts with `<param>:`. -/
theorem claim_C7_amended (doc : String) (ps : List SigParam) (p : SigParam)
    (hnd : ((ps.filter fun q => !skipParam q).map SigParam.name).Nodup)
    (hp : p ∈ ps) (hs : skipParam p = false) :
    (schemaProperty (buildInputSchema doc ps) p.name = some (paramProperty doc p)
     ∧ jsonGet (paramProperty doc p) "type" = some (.str (paramTypeOf p.ann).1)
     ∧ jsonGet (paramProperty doc p) "items"
         = (paramTypeOf p.ann).2.map (fun it => Value.obj [("type", .str it)])
     ∧ jsonGet (paramProperty doc p) "description"
         = (docDescription doc p.name).map Value.str)
  ∧ schemaRequired (buildInputSchema doc ps)
      = (ps.filter fun q => !skipParam q && !q.hasDefault).map (fun q => Value.str q.name)
  ∧ (paramTypeOf .str = ("string", none) ∧ paramTypeOf .int = ("integer", none)
     ∧ paramTypeOf .float = ("number", none) ∧ paramTypeOf .bool = ("boolean", none)
     ∧ paramTypeOf .empty = ("string", none)
     ∧ paramTypeOf (.list .str) = ("array", some "string")
     ∧ paramTypeOf (.list .int) = ("array", some "integer")) := by
  obtain ⟨h₁, h₂, h₃⟩ := paramProperty_fields doc p
  exact ⟨⟨buildInputSchema_props doc ps p hnd hp hs, h₁, h₂, h₃⟩,
    buildInputSchema_required doc ps, rfl, rfl, rfl, rfl, rfl, rfl, rfl⟩

/-- A concrete docstring naming `resize_ratio`, for the claim C7 witness. -/
def c7Doc : String :=
  "截取屏幕截图\n\nArgs:\n    resize_ratio: 图像缩放比例\n    tags: 标签列表\n\nReturns:\n    截图文件路径"

/-- A concrete parameter list (receiver, context argument, a defaulted
float and a required `List[str]`), for the claim C7 witness. -/
def c7Params : List SigParam :=
  [⟨"self", .other "AndroidTools", true⟩, ⟨"params", .empty, false⟩,
   ⟨"resize_ratio", .float, true⟩, ⟨"tags", .list .str, false⟩]

/-- Witness for amended claim C7 at the concrete signature `c7Params` and
parameter `tags`. -/
theorem claim_C7_witness :
    ((c7Params.filter fun q => !skipParam q).map SigParam.name).Nodup
  ∧ (⟨"tags", .list .str, false⟩ : SigParam) ∈ c7Params
  ∧ skipParam ⟨"tags", .list .str, false⟩ = false
  ∧ ((schemaProperty (buildInputSchema c7Doc c7Params) "tags"
        = some (paramProperty c7Doc ⟨"tags", .list .str, false⟩)
      ∧ jsonGet (paramProperty c7Doc ⟨"tags", .list .str, false⟩) "type"
          = some (.str "array")
      ∧ jsonGet (paramProperty c7Doc ⟨"tags", .list .str, false⟩) "items"
          = some (.obj [("type", .str "string")])
      ∧ jsonGet (paramProperty c7Doc ⟨"tags", .list .str, false⟩) "description"
          = (docDescription c7Doc "tags").map Value.str)
     ∧ schemaRequired (buildInputSchema c7Doc c7Params)
        = (c7Params.filter fun q => !skipParam q && !q.hasDefault).map
            (fun q => Value.str q.name)
     ∧ (paramTypeOf .str = ("string", none) ∧ paramTypeOf .int = ("integer", none)
        ∧ paramTypeOf .float = ("number", none) ∧ paramTypeOf .bool = ("boolean", none)
        ∧ paramTypeOf .empty = ("string", none)
        ∧ paramTypeOf (.list .str) = ("array", some "string")
        ∧ paramTypeOf (.list .int) = ("array", some "integer"))) :=
  ⟨by decide, by decide, rfl,
   claim_C7_amended c7Doc c7Params ⟨"tags", .list .str, false⟩ (by decide) (by decide) rfl⟩

end MCPDroid
